import Mathlib

/- Shallow embedding of the search subsystem of the an-rest-server backend:
   the three search strategies (text, vector, hybrid) from
   src/api/search_modules.py, the dispatcher from src/crud/crud_search.py,
   the /search/products route and the embedding backfill batch from
   src/api/routes/search.py, the search-vector maintenance hooks from
   src/crud/crud.py, and the weight normalization from src/core/config.py.

   Scores are modelled as rationals.  The store's native operators
   (full-text match `@@`, `ts_rank`, pgvector `<=>`) are fields of the
   `Store` structure, since PostgreSQL computes them; SQL NULL semantics
   (a NULL tsvector never satisfies `@@`; arithmetic with a NULL operand
   is NULL; `ORDER BY relevance DESC` puts NULLs first) are modelled with
   `Option`. -/

/-- Python's `str.split()` on a character list: split on whitespace,
dropping empty pieces.  `cur` is the current token, reversed. -/
def splitChars : List Char → List Char → List (List Char)
  | [], cur => if cur.isEmpty then [] else [cur.reverse]
  | c :: cs, cur =>
    if c.isWhitespace then
      if cur.isEmpty then splitChars cs [] else cur.reverse :: splitChars cs []
    else splitChars cs (c :: cur)

/-- Python's `query.split()` (search_modules.py line 120 and 306). -/
def pySplit (s : String) : List String :=
  (splitChars s.toList []).map List.asString

/-- A row of the `products` table (src/models/product.py), restricted to the
columns the search subsystem reads.  `search_vector` and `embedding` are
nullable columns. -/
structure Product where
  id : Nat
  title : String
  description : Option String
  price : ℚ
  brand : Option String
  tags : Option String
  category_id : Option Int
  search_vector : Option (List String)
  embedding : Option (List ℚ)
deriving DecidableEq

/-- A row of the `categories` table (src/models/product.py). -/
structure Category where
  id : Nat
  name : String
  description : Option String
  search_vector : Option (List String)
deriving DecidableEq

/-- The relational store: the products table plus PostgreSQL's native
full-text and vector operators, which the strategies delegate to. -/
structure Store where
  products : List Product
  /-- `tsvector @@ tsquery` -/
  tsMatchOp : List String → List String → Bool
  /-- `ts_rank(search_vector, tsquery)` -/
  tsRank : List String → List String → ℚ
  /-- pgvector cosine distance `embedding <=> query_vector` -/
  cosDist : List ℚ → List ℚ → ℚ

/-- Application settings (src/core/config.py), restricted to the search
configuration surface. -/
structure Settings where
  vector_search_enabled : Bool
  openai_api_key : Option String
  embedding_model : String
  embedding_dimensions : Nat
  hybrid_search_text_weight : ℚ
  hybrid_search_vector_weight : ℚ
  embedding_batch_size : Nat
  max_search_results : Nat

/-- `Settings.initialize` (config.py lines 69-79): normalize the hybrid
weights so they sum to 1.0 when they do not already. -/
def initSettings (s : Settings) : Settings :=
  let total := s.hybrid_search_text_weight + s.hybrid_search_vector_weight
  if total ≠ 1 then
    { s with
      hybrid_search_text_weight := s.hybrid_search_text_weight / total,
      hybrid_search_vector_weight := s.hybrid_search_vector_weight / total }
  else s

/-- `SearchConfig` (search_modules.py lines 22-48): a snapshot of the
settings the search code reads. -/
structure SearchConfig where
  VECTOR_SEARCH_ENABLED : Bool
  OPENAI_API_KEY : Option String
  EMBEDDING_MODEL : String
  EMBEDDING_DIMENSIONS : Nat
  TEXT_WEIGHT : ℚ
  VECTOR_WEIGHT : ℚ

/-- `SearchConfig` class attributes are initialized from `settings`. -/
def SearchConfig.ofSettings (s : Settings) : SearchConfig :=
  { VECTOR_SEARCH_ENABLED := s.vector_search_enabled
    OPENAI_API_KEY := s.openai_api_key
    EMBEDDING_MODEL := s.embedding_model
    EMBEDDING_DIMENSIONS := s.embedding_dimensions
    TEXT_WEIGHT := s.hybrid_search_text_weight
    VECTOR_WEIGHT := s.hybrid_search_vector_weight }

/-- The runtime errors the search paths can raise. -/
inductive SearchError where
  /-- PostgreSQL raises a tsquery syntax error for `to_tsquery('english', '')`. -/
  | emptyTsquery
  /-- `ValueError("Vector search is not enabled")`. -/
  | vectorDisabled
  /-- `ValueError("OpenAI API key is not set")`. -/
  | missingApiKey
  /-- `HTTPException(500, "Embedding service error: ...")` from the provider call. -/
  | providerFailure
  /-- pydantic `ValidationError` constructing a `SearchResult`. -/
  | resultValidation
deriving DecidableEq

/-- The embedding provider (OpenAI endpoint behind httpx): a text either
embeds to a vector or the HTTP call fails. -/
def EmbedProvider : Type := String → Option (List ℚ)

/-- `VectorSearchStrategy.generate_embedding` (search_modules.py 177-198):
fails when no API key is configured, otherwise calls the provider and maps
HTTP failure to a 500. -/
def generate_embedding (cfg : SearchConfig) (provider : EmbedProvider)
    (text : String) : Except SearchError (List ℚ) :=
  match cfg.OPENAI_API_KEY with
  | none => .error .missingApiKey
  | some _ =>
    match provider text with
    | some v => .ok v
    | none => .error .providerFailure

/-- `to_tsquery('english', ' & '.join(tokens))`: PostgreSQL rejects the
empty query string with a syntax error, otherwise the conjunctive query is
the token list itself. -/
def to_tsquery (tokens : List String) : Except SearchError (List String) :=
  if tokens = [] then .error .emptyTsquery else .ok tokens

/-- `search_vector @@ to_tsquery(...)` on a nullable column: SQL NULL is
never TRUE, so rows with a NULL search_vector never match. -/
def tsvMatches (store : Store) (sv : Option (List String))
    (tq : List String) : Bool :=
  match sv with
  | none => false
  | some v => store.tsMatchOp v tq

/-- A filter value: `_apply_filters` (search_modules.py 70-82) uses `in_`
for list values and `==` otherwise. -/
inductive FilterValue where
  | intV (n : Int)
  | strV (s : String)
  | intList (ns : List Int)
  | strList (ss : List String)
deriving DecidableEq

/-- One filter applied to a product row.  The search routes filter on
`category_id` and `brand`; a field name the model lacks is silently
ignored (the `hasattr` guard). -/
def productFilterPred (p : Product) (field : String) (v : FilterValue) : Bool :=
  if field = "category_id" then
    match v with
    | .intV n => p.category_id = some n
    | .intList ns =>
      match p.category_id with
      | some c => ns.contains c
      | none => false
    | _ => false
  else if field = "brand" then
    match v with
    | .strV s => p.brand = some s
    | .strList ss =>
      match p.brand with
      | some b => ss.contains b
      | none => false
    | _ => false
  else true

/-- `_apply_filters`: every filter is a conjunctive predicate. -/
def applyFilters (p : Product) (filters : List (String × FilterValue)) : Bool :=
  filters.all fun fv => productFilterPred p fv.1 fv.2

/-- A range filter entry `{min?, max?}`. -/
structure RangeCond where
  min : Option ℚ
  max : Option ℚ
deriving DecidableEq

/-- One range filter applied to a product row (`_apply_range_filters`,
search_modules.py 84-96).  The search route ranges over `price`. -/
def productRangePred (p : Product) (field : String) (c : RangeCond) : Bool :=
  if field = "price" then
    (match c.min with
     | some m => decide (m ≤ p.price)
     | none => true)
    && (match c.max with
        | some m => decide (p.price ≤ m)
        | none => true)
  else true

/-- `_apply_range_filters`: conjunction over all range filters. -/
def applyRangeFilters (p : Product) (rfs : List (String × RangeCond)) : Bool :=
  rfs.all fun fc => productRangePred p fc.1 fc.2

/-- A constructed search result row: the entity projection plus the
`relevance` column (schemas/search.py `ProductSearchResult`). -/
structure ResultRow where
  product : Product
  relevance : ℚ
deriving DecidableEq

/-- Constructing a `SearchResult`: pydantic validates
`relevance: float = Field(ge=0.0, le=1.0)` (schemas/search.py line 9), and a
NULL relevance fails float validation. -/
def mkSearchResult (p : Product) (rel : Option ℚ) : Except SearchError ResultRow :=
  match rel with
  | none => .error .resultValidation
  | some r =>
    if 0 ≤ r ∧ r ≤ 1 then .ok ⟨p, r⟩ else .error .resultValidation

/-- `[self._to_schema(row) for row in rows]`: converts each scored row,
propagating the first validation failure. -/
def toSchemas : List (Product × Option ℚ) → Except SearchError (List ResultRow)
  | [] => .ok []
  | (p, rel) :: rest =>
    match mkSearchResult p rel with
    | .error e => .error e
    | .ok r =>
      match toSchemas rest with
      | .error e => .error e
      | .ok rs => .ok (r :: rs)

/-- `ORDER BY relevance DESC`: is `a` ordered no later than `b`?  SQL sorts
NULLs first under DESC. -/
def optRelGe : Option ℚ → Option ℚ → Bool
  | none, _ => true
  | some _, none => false
  | some x, some y => decide (y ≤ x)

/-- The sort `ORDER BY relevance DESC` applied to the scored rows. -/
def orderByRelevanceDesc (rows : List (Product × Option ℚ)) :
    List (Product × Option ℚ) :=
  List.insertionSort (fun a b => optRelGe a.2 b.2 = true) rows

/-- `TextSearchStrategy.search` (search_modules.py 107-149): tokenize the
query, build the `@@`-filtered, filtered, rank-ordered, limited query, and
convert rows to schemas.  `ts_rank` on a NULL search_vector is NULL, but
matching rows always have a non-NULL search_vector. -/
def TextSearchStrategy.search (store : Store) (query : String)
    (filters : List (String × FilterValue))
    (range_filters : List (String × RangeCond)) (limit : Nat) :
    Except SearchError (List ResultRow) :=
  match to_tsquery (pySplit query) with
  | .error e => .error e
  | .ok search_terms =>
    let rows := store.products.filter fun p =>
      tsvMatches store p.search_vector search_terms
      && applyFilters p filters && applyRangeFilters p range_filters
    let scored := rows.map fun p =>
      (p, p.search_vector.map fun sv => store.tsRank sv search_terms)
    toSchemas ((orderByRelevanceDesc scored).take limit)

/-- `VectorSearchStrategy.search` (search_modules.py 200-249): requires the
feature flag, embeds the raw query string, restricts to rows with a
non-NULL embedding, scores by `1 - cosine_distance`, orders and limits. -/
def VectorSearchStrategy.search (cfg : SearchConfig) (store : Store)
    (provider : EmbedProvider) (query : String)
    (filters : List (String × FilterValue))
    (range_filters : List (String × RangeCond)) (limit : Nat) :
    Except SearchError (List ResultRow) :=
  if cfg.VECTOR_SEARCH_ENABLED = false then .error .vectorDisabled
  else
    match generate_embedding cfg provider query with
    | .error e => .error e
    | .ok qemb =>
      let rows := store.products.filter fun p =>
        p.embedding.isSome
        && applyFilters p filters && applyRangeFilters p range_filters
      let scored := rows.map fun p =>
        (p, p.embedding.map fun e => 1 - store.cosDist e qemb)
      toSchemas ((orderByRelevanceDesc scored).take limit)

/-- The hybrid relevance column
`text_weight * ts_rank(...) + vector_weight * (1 - embedding <=> :embedding)`
(search_modules.py 315-320).  If either nullable column is NULL the SQL
expression is NULL. -/
def hybridScore (store : Store) (text_weight vector_weight : ℚ) (p : Product)
    (tq : List String) (qemb : List ℚ) : Option ℚ :=
  match p.search_vector, p.embedding with
  | some sv, some e =>
    some (text_weight * store.tsRank sv tq
      + vector_weight * (1 - store.cosDist e qemb))
  | _, _ => none

/-- The body of the `try` block of `HybridSearchStrategy.search`
(search_modules.py 301-346): embed the query, build the tsquery, match rows
satisfying the lexical predicate OR having an embedding, score with the
weighted sum, order, limit, convert. -/
def HybridSearchStrategy.core (cfg : SearchConfig) (store : Store)
    (provider : EmbedProvider) (query : String)
    (filters : List (String × FilterValue))
    (range_filters : List (String × RangeCond)) (limit : Nat)
    (text_weight vector_weight : ℚ) :
    Except SearchError (List ResultRow) :=
  match generate_embedding cfg provider query with
  | .error e => .error e
  | .ok qemb =>
    match to_tsquery (pySplit query) with
    | .error e => .error e
    | .ok search_terms =>
      let rows := store.products.filter fun p =>
        (tsvMatches store p.search_vector search_terms || p.embedding.isSome)
        && applyFilters p filters && applyRangeFilters p range_filters
      let scored := rows.map fun p =>
        (p, hybridScore store text_weight vector_weight p search_terms qemb)
      toSchemas ((orderByRelevanceDesc scored).take limit)

/-- `HybridSearchStrategy.search` (search_modules.py 284-354): with vector
search disabled it delegates to the text strategy outright; otherwise any
exception from the scored query falls back to the text strategy. -/
def HybridSearchStrategy.search (cfg : SearchConfig) (store : Store)
    (provider : EmbedProvider) (query : String)
    (filters : List (String × FilterValue))
    (range_filters : List (String × RangeCond)) (limit : Nat)
    (text_weight vector_weight : ℚ) :
    Except SearchError (List ResultRow) :=
  if cfg.VECTOR_SEARCH_ENABLED = false then
    TextSearchStrategy.search store query filters range_filters limit
  else
    match HybridSearchStrategy.core cfg store provider query filters
        range_filters limit text_weight vector_weight with
    | .ok rs => .ok rs
    | .error _ =>
      TextSearchStrategy.search store query filters range_filters limit

/-- `SearchableCRUD.text_search` (crud_search.py 33-44). -/
def SearchableCRUD.text_search (store : Store) (query : String)
    (filters : List (String × FilterValue))
    (range_filters : List (String × RangeCond)) (limit : Nat) :
    Except SearchError (List ResultRow) :=
  TextSearchStrategy.search store query filters range_filters limit

/-- `SearchableCRUD.vector_search` (crud_search.py 46-60): re-checks the
feature flag, then runs the vector strategy. -/
def SearchableCRUD.vector_search (cfg : SearchConfig) (store : Store)
    (provider : EmbedProvider) (query : String)
    (filters : List (String × FilterValue))
    (range_filters : List (String × RangeCond)) (limit : Nat) :
    Except SearchError (List ResultRow) :=
  if cfg.VECTOR_SEARCH_ENABLED = false then .error .vectorDisabled
  else VectorSearchStrategy.search cfg store provider query filters
    range_filters limit

/-- `SearchableCRUD.hybrid_search` (crud_search.py 62-82): builds the hybrid
strategy with the given weights (its own defaults are 0.4/0.6). -/
def SearchableCRUD.hybrid_search (cfg : SearchConfig) (store : Store)
    (provider : EmbedProvider) (query : String)
    (filters : List (String × FilterValue))
    (range_filters : List (String × RangeCond)) (limit : Nat)
    (text_weight vector_weight : ℚ) :
    Except SearchError (List ResultRow) :=
  HybridSearchStrategy.search cfg store provider query filters range_filters
    limit text_weight vector_weight

/-- `SearchableCRUD.search` (crud_search.py 84-112), the dispatcher: vector
and hybrid fall back to text search on any exception; any other method
value runs text search.  The hybrid call passes no weights, so the
defaults 0.4/0.6 apply — not the configured `SearchConfig` weights. -/
def SearchableCRUD.search (cfg : SearchConfig) (store : Store)
    (provider : EmbedProvider) (query : String) (method : String)
    (filters : List (String × FilterValue))
    (range_filters : List (String × RangeCond)) (limit : Nat) :
    Except SearchError (List ResultRow) :=
  if method = "vector" then
    match SearchableCRUD.vector_search cfg store provider query filters
        range_filters limit with
    | .ok rs => .ok rs
    | .error _ =>
      SearchableCRUD.text_search store query filters range_filters limit
  else if method = "hybrid" then
    match SearchableCRUD.hybrid_search cfg store provider query filters
        range_filters limit 0.4 0.6 with
    | .ok rs => .ok rs
    | .error _ =>
      SearchableCRUD.text_search store query filters range_filters limit
  else
    SearchableCRUD.text_search store query filters range_filters limit

/-- `CRUDProductSearch.search_products` (crud_search.py 166-205): assemble
the filter dictionaries from the route parameters and dispatch. -/
def CRUDProductSearch.search_products (cfg : SearchConfig) (store : Store)
    (provider : EmbedProvider) (query : String) (method : String)
    (category_id : Option Int) (brand : Option String)
    (min_price max_price : Option ℚ) (limit : Nat) :
    Except SearchError (List ResultRow) :=
  let filters :=
    (match category_id with
     | some c => [("category_id", FilterValue.intV c)]
     | none => [])
    ++ (match brand with
        | some b => [("brand", FilterValue.strV b)]
        | none => [])
  let range_filters :=
    if min_price.isSome || max_price.isSome then
      [("price", RangeCond.mk min_price max_price)]
    else []
  SearchableCRUD.search cfg store provider query method filters
    range_filters limit

/-- `SearchResponse` (schemas/search.py 71-76), without the latency field. -/
structure SearchResponse where
  results : List ResultRow
  total : Nat
  query : String
  method : String
deriving DecidableEq

/-- What the route surfaces: a response, or an `HTTPException`. -/
inductive RouteResult where
  | ok (resp : SearchResponse)
  | httpError (statusCode : Nat) (detail : String)
deriving DecidableEq

/-- `str(e)` for each modelled exception, as interpolated into the route's
catch-all 500 detail. -/
def searchErrorMessage : SearchError → String
  | .emptyTsquery => "syntax error in tsquery"
  | .vectorDisabled => "Vector search is not enabled"
  | .missingApiKey => "OpenAI API key is not set"
  | .providerFailure => "500: Embedding service error"
  | .resultValidation => "1 validation error for ProductSearchResult"

/-- `search_products` (routes/search.py 129-184).  The whole handler body is
one `try` block whose `except Exception` re-raises everything as
`HTTPException(500, "Search error: " + str(e))` — including the
`HTTPException(400)` raised for an invalid method, since `HTTPException`
subclasses `Exception`. -/
def search_products_try_body (cfg : SearchConfig) (store : Store)
    (provider : EmbedProvider) (q : String) (method : String)
    (category_id : Option Int) (brand : Option String)
    (min_price max_price : Option ℚ) (limit : Nat) :
    Except String SearchResponse :=
  if ¬(method = "text" ∨ method = "vector" ∨ method = "hybrid") then
    .error ("400: Invalid search method: " ++ method)
  else
    let m :=
      if (method = "vector" ∨ method = "hybrid")
          ∧ cfg.VECTOR_SEARCH_ENABLED = false then "text"
      else method
    match CRUDProductSearch.search_products cfg store provider q m
        category_id brand min_price max_price limit with
    | .ok results => .ok ⟨results, results.length, q, m⟩
    | .error e => .error (searchErrorMessage e)

/-- The route handler: the `try` body above, with `except Exception`
converting every escaping exception into the catch-all 500. -/
def search_products_route (cfg : SearchConfig) (store : Store)
    (provider : EmbedProvider) (q : String) (method : String)
    (category_id : Option Int) (brand : Option String)
    (min_price max_price : Option ℚ) (limit : Nat) : RouteResult :=
  match search_products_try_body cfg store provider q method category_id
      brand min_price max_price limit with
  | .ok resp => .ok resp
  | .error s => .httpError 500 ("Search error: " ++ s)

/-- The searchable text for a product
(`f"{obj.title} {obj.description or ''} {obj.brand or ''} {obj.tags or ''}"`,
crud.py line 27). -/
def productSearchText (p : Product) : String :=
  p.title ++ " " ++ p.description.getD "" ++ " " ++ p.brand.getD ""
    ++ " " ++ p.tags.getD ""

/-- The searchable text for a category
(`f"{obj.name} {obj.description or ''}"`, crud.py line 310). -/
def categorySearchText (c : Category) : String :=
  c.name ++ " " ++ c.description.getD ""

/-- The create-schema payload for a product (the searched columns). -/
structure ProductCreate where
  title : String
  description : Option String
  price : ℚ
  brand : Option String
  tags : Option String
  category_id : Option Int

/-- `CRUDProduct.create` (crud.py 35-37): the base insert commits
(crud_base.py 70-72), then `update_search_vector` (crud.py 25-33) executes
`UPDATE products SET search_vector = to_tsvector('english', ...)` and
refreshes the object — but never commits, and `get_db` (db/session.py)
only closes the session at the end of the request, rolling the open
transaction back.  The first component is the durable table: the new row
keeps `search_vector = NULL`.  The second is the returned object, whose
refresh inside the still-open transaction sees the uncommitted write.
`toTsv` is PostgreSQL's `to_tsvector('english', ·)`, an external pure
function. -/
def CRUDProduct.create (toTsv : String → List String) (table : List Product)
    (pid : Nat) (obj_in : ProductCreate) : List Product × Product :=
  let db_obj : Product :=
    { id := pid, title := obj_in.title, description := obj_in.description,
      price := obj_in.price, brand := obj_in.brand, tags := obj_in.tags,
      category_id := obj_in.category_id, search_vector := none,
      embedding := none }
  let txt := productSearchText db_obj
  (table ++ [db_obj], { db_obj with search_vector := some (toTsv txt) })

/-- The update-schema payload: only the fields present (and non-None) are
applied, per `CRUDBase.update` (crud_base.py 92-94). -/
structure ProductUpdate where
  title : Option String
  description : Option String
  price : Option ℚ
  brand : Option String
  tags : Option String
  category_id : Option Int

/-- Applying the non-None update fields to the ORM object. -/
def applyProductUpdate (p : Product) (u : ProductUpdate) : Product :=
  { p with
    title := u.title.getD p.title,
    description := (u.description.map some).getD p.description,
    price := u.price.getD p.price,
    brand := (u.brand.map some).getD p.brand,
    tags := (u.tags.map some).getD p.tags,
    category_id := (u.category_id.map some).getD p.category_id }

/-- `CRUDProduct.update` (crud.py 39-41): the base update commits the
mutated fields (crud_base.py 96-98), then `update_search_vector` runs
without a commit, exactly as in `CRUDProduct.create`: the durable row
keeps its pre-update (stale) `search_vector`; only the returned object
shows the recomputed projection. -/
def CRUDProduct.update (toTsv : String → List String) (table : List Product)
    (db_obj : Product) (obj_in : ProductUpdate) : List Product × Product :=
  let p1 := applyProductUpdate db_obj obj_in
  let txt := productSearchText p1
  (table.map fun q => if q.id = p1.id then p1 else q,
   { p1 with search_vector := some (toTsv txt) })

/-- The create-schema payload for a category. -/
structure CategoryCreate where
  name : String
  description : Option String

/-- `CRUDCategory.create` (crud.py 317-320): the same shape as
`CRUDProduct.create`, with the same missing commit in
`CRUDCategory.update_search_vector` (crud.py 308-316): the stored category
row keeps `search_vector = NULL`. -/
def CRUDCategory.create (toTsv : String → List String)
    (table : List Category) (cid : Nat) (obj_in : CategoryCreate) :
    List Category × Category :=
  let db_obj : Category :=
    { id := cid, name := obj_in.name, description := obj_in.description,
      search_vector := none }
  let txt := categorySearchText db_obj
  (table ++ [db_obj], { db_obj with search_vector := some (toTsv txt) })

/-- The update-schema payload for a category. -/
structure CategoryUpdate where
  name : Option String
  description : Option String

/-- Applying the non-None update fields to the category object. -/
def applyCategoryUpdate (c : Category) (u : CategoryUpdate) : Category :=
  { c with
    name := u.name.getD c.name,
    description := (u.description.map some).getD c.description }

/-- `CRUDCategory.update` (crud.py 322-324): the base update commits; the
search-vector write is rolled back at session close, so the stored row
keeps its stale projection. -/
def CRUDCategory.update (toTsv : String → List String)
    (table : List Category) (db_obj : Category) (obj_in : CategoryUpdate) :
    List Category × Category :=
  let c1 := applyCategoryUpdate db_obj obj_in
  let txt := categorySearchText c1
  (table.map fun q => if q.id = c1.id then c1 else q,
   { c1 with search_vector := some (toTsv txt) })

/-- `SearchableCRUD.get_records_without_embeddings` (crud_search.py
141-155): the rows whose embedding is NULL, limited to `limit`. -/
def get_records_without_embeddings (table : List Product) (limit : Nat) :
    List Product :=
  (table.filter fun p => p.embedding = none).take limit

/-- `get_records_without_embeddings_count` (routes/search.py 29-38):
`SELECT count(*) FROM products WHERE embedding IS NULL`. -/
def records_without_embeddings_count (table : List Product) : Nat :=
  table.countP fun p => p.embedding = none

/-- `generate_product_embedding_text` (crud_search.py 207-224): title,
description, brand, tags, plus the category name when the relationship
resolves. -/
def generate_product_embedding_text (cats : List Category) (p : Product) :
    String :=
  let base := [p.title, p.description.getD "", p.brand.getD "",
    p.tags.getD ""]
  let parts :=
    match p.category_id.bind fun cid => cats.find? fun c => c.id = cid with
    | some c => base ++ [c.name]
    | none => base
  (" ".intercalate parts).trim

/-- `UPDATE products SET embedding = :embedding WHERE id = :id`
(routes/search.py 95-102). -/
def setEmbedding (table : List Product) (pid : Nat) (emb : List ℚ) :
    List Product :=
  table.map fun p =>
    if p.id = pid then { p with embedding := some emb } else p

/-- One iteration of the backfill loop (routes/search.py 70-110): re-read
the row in a fresh session, skip it when missing or already embedded,
otherwise embed its text and write the embedding back; any failure counts
one error and continues.  State is (table, processed_count, error_count). -/
def processOneEmbedding (cfg : SearchConfig) (provider : EmbedProvider)
    (cats : List Category) (acc : List Product × Nat × Nat) (pid : Nat) :
    List Product × Nat × Nat :=
  let (tbl, processed, errors) := acc
  match tbl.find? fun p => p.id = pid with
  | none => (tbl, processed, errors)
  | some p =>
    if p.embedding ≠ none then (tbl, processed, errors)
    else
      match generate_embedding cfg provider
          (generate_product_embedding_text cats p) with
      | .error _ => (tbl, processed, errors + 1)
      | .ok emb => (setEmbedding tbl pid emb, processed + 1, errors)

/-- `process_embeddings_batch` (routes/search.py 40-127): scan for up to
`batch_size` rows without an embedding, then process each collected id.
The batch-completion/auto-chaining code in the source sits after a
`continue` inside the `except` clause and is unreachable, so a single
batch per invocation is the whole reachable behavior. -/
def process_embeddings_batch (cfg : SearchConfig) (provider : EmbedProvider)
    (cats : List Category) (table : List Product) (batch_size : Nat) :
    List Product × Nat × Nat :=
  let product_ids :=
    (get_records_without_embeddings table batch_size).map Product.id
  product_ids.foldl (processOneEmbedding cfg provider cats) (table, 0, 0)

/- Concrete instances used by witnesses and counterexamples. -/

/-- A product row with both search columns populated. -/
def prodA : Product :=
  { id := 1, title := "Red Dress", description := none, price := 10,
    brand := none, tags := none, category_id := none,
    search_vector := some ["red"], embedding := some [1] }

/-- A one-row store whose native operators are constant: every tsvector
matches, rank 1, cosine distance 1. -/
def store1 : Store :=
  { products := [prodA],
    tsMatchOp := fun _ _ => true,
    tsRank := fun _ _ => 1,
    cosDist := fun _ _ => 1 }

/-- Settings whose configured hybrid weights are 0.2 / 0.8 (already summing
to 1, so `initialize` keeps them). -/
def settings1 : Settings :=
  { vector_search_enabled := true, openai_api_key := some "k",
    embedding_model := "text-embedding-3-small",
    embedding_dimensions := 1536,
    hybrid_search_text_weight := 0.2,
    hybrid_search_vector_weight := 0.8,
    embedding_batch_size := 50, max_search_results := 100 }

/-- The search configuration loaded from `settings1` after `initialize`. -/
def cfg1 : SearchConfig := SearchConfig.ofSettings (initSettings settings1)

/-- A provider that embeds every text to `[1]`. -/
def provider1 : EmbedProvider := fun _ => some [1]

/-- A configuration with vector search disabled. -/
def cfgDisabled : SearchConfig :=
  { VECTOR_SEARCH_ENABLED := false, OPENAI_API_KEY := none,
    EMBEDDING_MODEL := "text-embedding-3-small",
    EMBEDDING_DIMENSIONS := 1536, TEXT_WEIGHT := 0.4, VECTOR_WEIGHT := 0.6 }

lemma cfg1_eval :
    cfg1 = { VECTOR_SEARCH_ENABLED := true, OPENAI_API_KEY := some "k",
             EMBEDDING_MODEL := "text-embedding-3-small",
             EMBEDDING_DIMENSIONS := 1536,
             TEXT_WEIGHT := 0.2, VECTOR_WEIGHT := 0.8 } := by
  norm_num [cfg1, SearchConfig.ofSettings, initSettings, settings1]

/-- C2, amended statement: a query that tokenizes to nothing makes the text
strategy fail with the tsquery syntax error (it neither returns the whole
table nor an empty result list). -/
theorem text_search_empty_query_error (store : Store) (q : String)
    (filters : List (String × FilterValue))
    (range_filters : List (String × RangeCond)) (limit : Nat)
    (h : pySplit q = []) :
    TextSearchStrategy.search store q filters range_filters limit
      = .error .emptyTsquery := by
  simp [TextSearchStrategy.search, h, to_tsquery]

/-- C2 witness: the whitespace-only query tokenizes to nothing and the text
strategy raises. -/
theorem text_search_empty_query_error_witness :
    pySplit "   " = []
    ∧ TextSearchStrategy.search store1 "   " [] [] 20
        = .error .emptyTsquery :=
  ⟨by decide, text_search_empty_query_error store1 "   " [] [] 20 (by decide)⟩

/-- C2 counterexample to the claim as stated: the empty query does not
return an empty result list — the call raises the tsquery syntax error. -/
theorem text_search_empty_query_not_empty_list :
    TextSearchStrategy.search store1 "" [] [] 20 = .error .emptyTsquery
    ∧ ∀ rs : List ResultRow,
        TextSearchStrategy.search store1 "" [] [] 20 ≠ .ok rs := by
  have h : pySplit "" = [] := by decide
  refine ⟨by simp [TextSearchStrategy.search, h, to_tsquery], ?_⟩
  intro rs hc
  simp [TextSearchStrategy.search, h, to_tsquery] at hc

/-- C3: whenever the vector strategy raises any error, the dispatcher for
`method = "vector"` returns exactly what the text strategy returns for the
same query, filters, range filters and limit. -/
theorem dispatcher_vector_falls_back_to_text (cfg : SearchConfig)
    (store : Store) (provider : EmbedProvider) (q : String)
    (filters : List (String × FilterValue))
    (range_filters : List (String × RangeCond)) (limit : Nat)
    (e : SearchError)
    (h : SearchableCRUD.vector_search cfg store provider q filters
        range_filters limit = .error e) :
    SearchableCRUD.search cfg store provider q "vector" filters
        range_filters limit
      = SearchableCRUD.text_search store q filters range_filters limit := by
  simp [SearchableCRUD.search, h]

/-- C3 witness: with vector search disabled the strategy raises, and the
dispatcher result equals the text result. -/
theorem dispatcher_vector_falls_back_to_text_witness :
    SearchableCRUD.search cfgDisabled store1 provider1 "red" "vector" [] [] 20
      = SearchableCRUD.text_search store1 "red" [] [] 20 :=
  dispatcher_vector_falls_back_to_text cfgDisabled store1 provider1 "red"
    [] [] 20 .vectorDisabled
    (by simp [SearchableCRUD.vector_search, cfgDisabled])

/-- C4: with vector search disabled, hybrid search delegates to the text
strategy with the same arguments, so the result lists are identical. -/
theorem hybrid_disabled_equals_text (cfg : SearchConfig) (store : Store)
    (provider : EmbedProvider) (q : String)
    (filters : List (String × FilterValue))
    (range_filters : List (String × RangeCond)) (limit : Nat)
    (text_weight vector_weight : ℚ)
    (h : cfg.VECTOR_SEARCH_ENABLED = false) :
    HybridSearchStrategy.search cfg store provider q filters range_filters
        limit text_weight vector_weight
      = TextSearchStrategy.search store q filters range_filters limit := by
  simp [HybridSearchStrategy.search, h]

/-- C4 witness at a concrete disabled configuration. -/
theorem hybrid_disabled_equals_text_witness :
    HybridSearchStrategy.search cfgDisabled store1 provider1 "red dress"
        [] [] 20 0.4 0.6
      = TextSearchStrategy.search store1 "red dress" [] [] 20 :=
  hybrid_disabled_equals_text cfgDisabled store1 provider1 "red dress"
    [] [] 20 0.4 0.6 rfl

/-- C9: every successful response reports `total = len(results)` — the
count of returned (limit-truncated) rows, not a full matching-set count. -/
theorem response_total_is_returned_row_count (cfg : SearchConfig)
    (store : Store) (provider : EmbedProvider) (q method : String)
    (category_id : Option Int) (brand : Option String)
    (min_price max_price : Option ℚ) (limit : Nat) (resp : SearchResponse)
    (h : search_products_route cfg store provider q method category_id brand
        min_price max_price limit = .ok resp) :
    resp.total = resp.results.length := by
  unfold search_products_route at h
  cases hb : search_products_try_body cfg store provider q method
      category_id brand min_price max_price limit with
  | error s => rw [hb] at h; cases h
  | ok r =>
    rw [hb] at h
    cases h
    unfold search_products_try_body at hb
    split at hb
    · cases hb
    · dsimp only at hb
      split at hb
      · cases hb; rfl
      · cases hb

/- Helper lemmas about result construction and ordering. -/

lemma mkSearchResult_ok {p : Product} {rel : Option ℚ} {r : ResultRow}
    (h : mkSearchResult p rel = .ok r) :
    p = r.product ∧ rel = some r.relevance
      ∧ 0 ≤ r.relevance ∧ r.relevance ≤ 1 := by
  cases rel with
  | none => simp [mkSearchResult] at h
  | some x =>
    simp only [mkSearchResult] at h
    by_cases hc : 0 ≤ x ∧ x ≤ 1
    · rw [if_pos hc] at h
      injection h with h1
      subst h1
      exact ⟨rfl, rfl, hc.1, hc.2⟩
    · rw [if_neg hc] at h
      cases h

lemma toSchemas_ok {rows : List (Product × Option ℚ)} {rs : List ResultRow}
    (h : toSchemas rows = .ok rs) :
    rows = rs.map (fun r => (r.product, some r.relevance))
    ∧ ∀ r ∈ rs, 0 ≤ r.relevance ∧ r.relevance ≤ 1 := by
  induction rows generalizing rs with
  | nil =>
    unfold toSchemas at h
    injection h with h1
    subst h1
    simp
  | cons pr rest ih =>
    obtain ⟨p, rel⟩ := pr
    unfold toSchemas at h
    cases hm : mkSearchResult p rel with
    | error e => rw [hm] at h; cases h
    | ok r =>
      rw [hm] at h
      cases ht : toSchemas rest with
      | error e => rw [ht] at h; cases h
      | ok rs0 =>
        rw [ht] at h
        injection h with h1
        subst h1
        obtain ⟨hmap, hbounds⟩ := ih ht
        obtain ⟨hp, hrel, hb0, hb1⟩ := mkSearchResult_ok hm
        refine ⟨by simp [hp, hrel, hmap], ?_⟩
        intro x hx
        rcases List.mem_cons.mp hx with hx | hx
        · subst hx
          exact ⟨hb0, hb1⟩
        · exact hbounds x hx

lemma optRelGe_total (a b : Option ℚ) :
    optRelGe a b = true ∨ optRelGe b a = true := by
  cases a with
  | none => exact Or.inl rfl
  | some x =>
    cases b with
    | none => exact Or.inr rfl
    | some y =>
      rcases le_total y x with h | h
      · exact Or.inl (by simp [optRelGe, h])
      · exact Or.inr (by simp [optRelGe, h])

lemma optRelGe_trans {a b c : Option ℚ} (h1 : optRelGe a b = true)
    (h2 : optRelGe b c = true) : optRelGe a c = true := by
  cases a with
  | none => rfl
  | some x =>
    cases b with
    | none => simp [optRelGe] at h1
    | some y =>
      cases c with
      | none => simp [optRelGe] at h2
      | some z =>
        simp [optRelGe] at h1 h2 ⊢
        exact le_trans h2 h1

lemma sorted_orderByRelevanceDesc (rows : List (Product × Option ℚ)) :
    List.Sorted (fun a b : Product × Option ℚ => optRelGe a.2 b.2 = true)
      (orderByRelevanceDesc rows) := by
  unfold orderByRelevanceDesc
  exact @List.sorted_insertionSort _ _ _
    ⟨fun a b => optRelGe_total a.2 b.2⟩
    ⟨fun a b c h1 h2 => @optRelGe_trans a.2 b.2 c.2 h1 h2⟩ rows

lemma mem_orderByRelevanceDesc {x : Product × Option ℚ}
    {rows : List (Product × Option ℚ)} :
    x ∈ orderByRelevanceDesc rows ↔ x ∈ rows := by
  unfold orderByRelevanceDesc
  exact List.mem_insertionSort _

/-- C5: a successful vector search embedded the raw query string once, and
every returned row has a non-NULL embedding with relevance
`1 - cosine_distance(embedding, query_vector)`; the list is sorted
descending by relevance and truncated to the limit. -/
theorem vector_search_results_correct (cfg : SearchConfig) (store : Store)
    (provider : EmbedProvider) (q : String)
    (filters : List (String × FilterValue))
    (range_filters : List (String × RangeCond)) (limit : Nat)
    (rs : List ResultRow)
    (h : VectorSearchStrategy.search cfg store provider q filters
        range_filters limit = .ok rs) :
    (∃ qemb, generate_embedding cfg provider q = .ok qemb
      ∧ ∀ r ∈ rs, ∃ e, r.product.embedding = some e
          ∧ r.relevance = 1 - store.cosDist e qemb)
    ∧ rs.length ≤ limit
    ∧ List.Sorted (fun a b : ResultRow => b.relevance ≤ a.relevance) rs := by
  unfold VectorSearchStrategy.search at h
  split at h
  · cases h
  · cases hg : generate_embedding cfg provider q with
    | error e => rw [hg] at h; cases h
    | ok qemb =>
      rw [hg] at h
      dsimp only at h
      obtain ⟨hmap, _⟩ := toSchemas_ok h
      refine ⟨⟨qemb, hg ▸ rfl, ?_⟩, ?_, ?_⟩
      · intro r hr
        have hx : (r.product, some r.relevance) ∈
            (orderByRelevanceDesc ((store.products.filter fun p =>
              p.embedding.isSome && applyFilters p filters
                && applyRangeFilters p range_filters).map fun p =>
              (p, p.embedding.map fun e => 1 - store.cosDist e qemb))).take
              limit := by
          rw [hmap]
          exact List.mem_map_of_mem _ hr
        have hx2 := mem_orderByRelevanceDesc.mp (List.mem_of_mem_take hx)
        obtain ⟨p, _, heq⟩ := List.mem_map.mp hx2
        rw [Prod.mk.injEq] at heq
        obtain ⟨hp, hrel⟩ := heq
        subst hp
        obtain ⟨e, he, hge⟩ := Option.map_eq_some'.mp hrel
        exact ⟨e, he, hge.symm⟩
      · have hlen : rs.length =
            ((orderByRelevanceDesc ((store.products.filter fun p =>
              p.embedding.isSome && applyFilters p filters
                && applyRangeFilters p range_filters).map fun p =>
              (p, p.embedding.map fun e => 1 - store.cosDist e qemb))).take
              limit).length := by
          rw [hmap, List.length_map]
        rw [hlen]
        exact List.length_take_le _ _
      · have hs := sorted_orderByRelevanceDesc
          ((store.products.filter fun p =>
            p.embedding.isSome && applyFilters p filters
              && applyRangeFilters p range_filters).map fun p =>
            (p, p.embedding.map fun e => 1 - store.cosDist e qemb))
        have hst := List.Pairwise.sublist (List.take_sublist limit _) hs
        rw [hmap] at hst
        have hp2 := List.pairwise_map.mp hst
        exact hp2.imp fun {a b} hab => by simpa [optRelGe] using hab

lemma vector_eval_red :
    VectorSearchStrategy.search cfg1 store1 provider1 "red" [] [] 20
      = .ok [⟨prodA, 0⟩] := by
  rw [cfg1_eval]
  norm_num [VectorSearchStrategy.search, generate_embedding, provider1,
    store1, prodA, applyFilters, applyRangeFilters, orderByRelevanceDesc,
    List.insertionSort, toSchemas, mkSearchResult]

/-- C5 witness: the concrete one-row vector search, with relevance
`1 - cosDist [1] [1] = 0`. -/
theorem vector_search_results_correct_witness :
    (∃ qemb, generate_embedding cfg1 provider1 "red" = .ok qemb
      ∧ ∀ r ∈ [ResultRow.mk prodA 0], ∃ e, r.product.embedding = some e
          ∧ r.relevance = 1 - store1.cosDist e qemb)
    ∧ ([ResultRow.mk prodA 0] : List ResultRow).length ≤ 20
    ∧ List.Sorted (fun a b : ResultRow => b.relevance ≤ a.relevance)
        [ResultRow.mk prodA 0] :=
  vector_search_results_correct cfg1 store1 provider1 "red" [] [] 20
    [⟨prodA, 0⟩] vector_eval_red

lemma text_eval_red :
    TextSearchStrategy.search store1 "red" [] [] 20 = .ok [⟨prodA, 1⟩] := by
  have hs : pySplit "red" = ["red"] := by decide
  norm_num [TextSearchStrategy.search, hs, to_tsquery, store1, prodA,
    tsvMatches, applyFilters, applyRangeFilters, orderByRelevanceDesc,
    List.insertionSort, toSchemas, mkSearchResult]

lemma route_eval_text :
    search_products_route cfgDisabled store1 provider1 "red" "text" none none
        none none 20 = .ok ⟨[⟨prodA, 1⟩], 1, "red", "text"⟩ := by
  simp [search_products_route, search_products_try_body,
    CRUDProductSearch.search_products, SearchableCRUD.search,
    SearchableCRUD.text_search, text_eval_red]

/-- C9 witness: the concrete successful route call reports total 1 for its
one returned row. -/
theorem response_total_is_returned_row_count_witness :
    (SearchResponse.mk [⟨prodA, 1⟩] 1 "red" "text").total
      = (SearchResponse.mk [⟨prodA, 1⟩] 1 "red" "text").results.length :=
  response_total_is_returned_row_count cfgDisabled store1 provider1 "red"
    "text" none none none none 20 ⟨[⟨prodA, 1⟩], 1, "red", "text"⟩
    route_eval_text

/-- C6: the invalid-method request surfaces as HTTP 500, not as the 400
client error: the handler's own `except Exception` catches the
`HTTPException(400)` raised inside the `try` block and re-raises it as
`HTTPException(500, "Search error: " + str(e))`. -/
theorem invalid_method_surfaces_as_500 :
    search_products_route cfg1 store1 provider1 "red dress" "fuzzy" none none
        none none 20
      = .httpError 500 "Search error: 400: Invalid search method: fuzzy" :=
  rfl

/-- A store whose text rank function returns 2 for every match; PostgreSQL's
`ts_rank` is not bounded by 1. -/
def store2 : Store :=
  { products := [prodA],
    tsMatchOp := fun _ _ => true,
    tsRank := fun _ _ => 2,
    cosDist := fun _ _ => 1 }

/-- C10 counterexample: a text-search row with the non-negative rank 2 does
not construct a result object — pydantic bounds `relevance` to [0,1] for
every method, so the whole call fails with a validation error. -/
theorem text_rank_above_one_rejected :
    TextSearchStrategy.search store2 "red" [] [] 20
      = .error .resultValidation
    ∧ (0:ℚ) ≤ 2
    ∧ mkSearchResult prodA (some 2) = .error .resultValidation := by
  have hs : pySplit "red" = ["red"] := by decide
  refine ⟨?_, by norm_num, ?_⟩
  · norm_num [TextSearchStrategy.search, hs, to_tsquery, store2, prodA,
      tsvMatches, applyFilters, applyRangeFilters, orderByRelevanceDesc,
      List.insertionSort, toSchemas, mkSearchResult]
  · norm_num [mkSearchResult]

/-- C10, amended statement: `SearchResult` construction succeeds exactly for
relevance values in [0,1] — for every method, including pure text rank — so
every successful text search returns only rows with relevance in [0,1],
and a rank above 1 is rejected. -/
theorem search_result_relevance_bounds :
    (∀ (p : Product) (rel : ℚ),
      (∃ r, mkSearchResult p (some rel) = .ok r) ↔ 0 ≤ rel ∧ rel ≤ 1)
    ∧ ∀ (store : Store) (q : String)
        (filters : List (String × FilterValue))
        (range_filters : List (String × RangeCond)) (limit : Nat)
        (rs : List ResultRow),
        TextSearchStrategy.search store q filters range_filters limit
          = .ok rs →
        ∀ r ∈ rs, 0 ≤ r.relevance ∧ r.relevance ≤ 1 := by
  constructor
  · intro p rel
    constructor
    · rintro ⟨r, hr⟩
      obtain ⟨_, hrel, h0, h1⟩ := mkSearchResult_ok hr
      injection hrel with hx
      rw [hx]
      exact ⟨h0, h1⟩
    · intro hb
      exact ⟨⟨p, rel⟩, by simp [mkSearchResult, hb]⟩
  · intro store q filters range_filters limit rs h r hr
    unfold TextSearchStrategy.search at h
    cases ht : to_tsquery (pySplit q) with
    | error e => rw [ht] at h; cases h
    | ok tq =>
      rw [ht] at h
      dsimp only at h
      exact (toSchemas_ok h).2 r hr

/-- C10 witness: the bound instantiated at the concrete successful text
search. -/
theorem search_result_relevance_bounds_witness :
    0 ≤ (ResultRow.mk prodA 1).relevance
      ∧ (ResultRow.mk prodA 1).relevance ≤ 1 :=
  search_result_relevance_bounds.2 store1 "red" [] [] 20 [⟨prodA, 1⟩]
    text_eval_red ⟨prodA, 1⟩ (by simp)

lemma hybrid_core_eval_red :
    HybridSearchStrategy.core cfg1 store1 provider1 "red" [] [] 20 0.4 0.6
      = .ok [⟨prodA, 0.4⟩] := by
  rw [cfg1_eval]
  have hs : pySplit "red" = ["red"] := by decide
  norm_num [HybridSearchStrategy.core, generate_embedding, provider1, hs,
    to_tsquery, store1, prodA, tsvMatches, applyFilters, applyRangeFilters,
    hybridScore, orderByRelevanceDesc, List.insertionSort, toSchemas,
    mkSearchResult]

lemma dispatch_hybrid_eval_red :
    SearchableCRUD.search cfg1 store1 provider1 "red" "hybrid" [] [] 20
      = .ok [⟨prodA, 0.4⟩] := by
  have hen : cfg1.VECTOR_SEARCH_ENABLED = true := by rw [cfg1_eval]
  simp [SearchableCRUD.search, SearchableCRUD.hybrid_search,
    HybridSearchStrategy.search, hen, hybrid_core_eval_red]

/-- C1 counterexample: a hybrid call with vector search enabled and a
successful query embedding whose returned relevance (0.4, from the CRUD
layer's default weights 0.4/0.6) differs from the weighted sum taken with
the configured hybrid weights (0.2/0.8, which sum to 1): the dispatcher
never passes `SearchConfig.TEXT_WEIGHT`/`VECTOR_WEIGHT` to the strategy. -/
theorem hybrid_relevance_ignores_configured_weights :
    SearchableCRUD.search cfg1 store1 provider1 "red" "hybrid" [] [] 20
      = .ok [⟨prodA, 0.4⟩]
    ∧ cfg1.TEXT_WEIGHT + cfg1.VECTOR_WEIGHT = 1
    ∧ generate_embedding cfg1 provider1 "red" = .ok [1]
    ∧ (ResultRow.mk prodA 0.4).relevance
        ≠ cfg1.TEXT_WEIGHT * store1.tsRank ["red"] (pySplit "red")
          + cfg1.VECTOR_WEIGHT * (1 - store1.cosDist [1] [1]) := by
  refine ⟨dispatch_hybrid_eval_red, ?_, ?_, ?_⟩
  · rw [cfg1_eval]
    norm_num
  · rw [cfg1_eval]
    simp [generate_embedding, provider1]
  · rw [cfg1_eval]
    norm_num [store1]

lemma hybridScore_eq_some {store : Store} {tw vw : ℚ} {p : Product}
    {tq : List String} {qemb : List ℚ} {x : ℚ}
    (h : hybridScore store tw vw p tq qemb = some x) :
    ∃ sv e, p.search_vector = some sv ∧ p.embedding = some e
      ∧ x = tw * store.tsRank sv tq + vw * (1 - store.cosDist e qemb) := by
  cases hsv : p.search_vector with
  | none => simp [hybridScore, hsv] at h
  | some sv =>
    cases hemb : p.embedding with
    | none => simp [hybridScore, hsv, hemb] at h
    | some e =>
      simp only [hybridScore, hsv, hemb] at h
      injection h with h1
      exact ⟨sv, e, rfl, rfl, h1.symm⟩

/-- C1, amended: for a hybrid call with vector search enabled whose scored
query succeeds end to end, the dispatcher returns it unchanged and each
returned result's relevance is
`0.4 * ts_rank + 0.6 * (1 - cosine_distance)` — the CRUD layer's default
weights 0.4/0.6 (which sum to 1.0), not the configured hybrid weights. -/
theorem hybrid_relevance_weighted_sum (cfg : SearchConfig) (store : Store)
    (provider : EmbedProvider) (q : String)
    (filters : List (String × FilterValue))
    (range_filters : List (String × RangeCond)) (limit : Nat)
    (rs : List ResultRow)
    (hen : cfg.VECTOR_SEARCH_ENABLED = true)
    (hcore : HybridSearchStrategy.core cfg store provider q filters
        range_filters limit 0.4 0.6 = .ok rs) :
    SearchableCRUD.search cfg store provider q "hybrid" filters range_filters
        limit = .ok rs
    ∧ ∃ qemb, generate_embedding cfg provider q = .ok qemb
      ∧ ∀ r ∈ rs, ∃ sv e, r.product.search_vector = some sv
          ∧ r.product.embedding = some e
          ∧ r.relevance = 0.4 * store.tsRank sv (pySplit q)
              + 0.6 * (1 - store.cosDist e qemb) := by
  refine ⟨by simp [SearchableCRUD.search, SearchableCRUD.hybrid_search,
    HybridSearchStrategy.search, hen, hcore], ?_⟩
  unfold HybridSearchStrategy.core at hcore
  cases hg : generate_embedding cfg provider q with
  | error e => rw [hg] at hcore; cases hcore
  | ok qemb =>
    rw [hg] at hcore
    cases ht : to_tsquery (pySplit q) with
    | error e => rw [ht] at hcore; cases hcore
    | ok tq =>
      rw [ht] at hcore
      dsimp only at hcore
      have htq : tq = pySplit q := by
        unfold to_tsquery at ht
        split at ht
        · cases ht
        · injection ht with h1
          exact h1.symm
      subst htq
      obtain ⟨hmap, _⟩ := toSchemas_ok hcore
      refine ⟨qemb, hg ▸ rfl, ?_⟩
      intro r hr
      have hx : (r.product, some r.relevance) ∈
          (orderByRelevanceDesc ((store.products.filter fun p =>
            (tsvMatches store p.search_vector (pySplit q)
              || p.embedding.isSome)
            && applyFilters p filters
            && applyRangeFilters p range_filters).map fun p =>
            (p, hybridScore store 0.4 0.6 p (pySplit q) qemb))).take
            limit := by
        rw [hmap]
        exact List.mem_map_of_mem _ hr
      have hx2 := mem_orderByRelevanceDesc.mp (List.mem_of_mem_take hx)
      obtain ⟨p, _, heq⟩ := List.mem_map.mp hx2
      rw [Prod.mk.injEq] at heq
      obtain ⟨hp, hrel⟩ := heq
      subst hp
      exact hybridScore_eq_some hrel

/-- C1 witness: the amended statement at the concrete hybrid call. -/
theorem hybrid_relevance_weighted_sum_witness :
    SearchableCRUD.search cfg1 store1 provider1 "red" "hybrid" [] [] 20
      = .ok [⟨prodA, 0.4⟩]
    ∧ ∃ qemb, generate_embedding cfg1 provider1 "red" = .ok qemb
      ∧ ∀ r ∈ [ResultRow.mk prodA 0.4], ∃ sv e,
          r.product.search_vector = some sv
          ∧ r.product.embedding = some e
          ∧ r.relevance = 0.4 * store1.tsRank sv (pySplit "red")
              + 0.6 * (1 - store1.cosDist e qemb) :=
  hybrid_relevance_weighted_sum cfg1 store1 provider1 "red" [] [] 20
    [⟨prodA, 0.4⟩] (by rw [cfg1_eval]) hybrid_core_eval_red

/-- C7: the missing commit evaluated at concrete inputs (`to_tsvector`
modelled by whitespace tokenization).  Creating a product returns an
object whose in-memory projection is the recomputation, but the stored row
keeps `search_vector = NULL`, because the UPDATE issued by
`update_search_vector` is never committed and is rolled back when `get_db`
closes the session; updating a product's title leaves the stored row with
the stale pre-update vector, differing from the recomputation of its own
fields; creating a category leaves its stored row with a NULL projection
the same way. -/
theorem search_vector_write_not_persisted :
    (CRUDProduct.create pySplit [] 1
        ⟨"Red Dress", none, 10, none, none, none⟩).2.search_vector
      = some (pySplit (productSearchText
          (CRUDProduct.create pySplit [] 1
            ⟨"Red Dress", none, 10, none, none, none⟩).2))
    ∧ (∀ q ∈ (CRUDProduct.create pySplit [] 1
        ⟨"Red Dress", none, 10, none, none, none⟩).1,
        q.search_vector = none)
    ∧ (∀ q ∈ (CRUDProduct.update pySplit [prodA] prodA
        ⟨some "Blue Dress", none, none, none, none, none⟩).1,
        q.search_vector = some ["red"]
        ∧ q.search_vector ≠ some (pySplit (productSearchText q)))
    ∧ (∀ c ∈ (CRUDCategory.create pySplit [] 1 ⟨"Shoes", none⟩).1,
        c.search_vector = none) := by
  decide

/- Helper lemmas for the backfill batch. -/

lemma find?_of_nodup {table : List Product}
    (hnd : (table.map Product.id).Nodup) {p : Product} (hp : p ∈ table) :
    table.find? (fun x => x.id = p.id) = some p := by
  induction table with
  | nil => cases hp
  | cons q rest ih =>
    rw [List.map_cons, List.nodup_cons] at hnd
    obtain ⟨hq, hnd'⟩ := hnd
    rcases List.mem_cons.mp hp with rfl | hp'
    · exact List.find?_cons_of_pos _ (by simp)
    · have hne : q.id ≠ p.id := fun he =>
        hq (he ▸ List.mem_map_of_mem Product.id hp')
      rw [List.find?_cons_of_neg _ (by simp [hne])]
      exact ih hnd' hp'

lemma mem_setEmbedding_none {tbl : List Product} {pid : Nat} {v : List ℚ}
    {q : Product} (hq : q ∈ setEmbedding tbl pid v)
    (hqe : q.embedding = none) : q ∈ tbl ∧ q.id ≠ pid := by
  unfold setEmbedding at hq
  obtain ⟨x, hx, hgx⟩ := List.mem_map.mp hq
  by_cases hxid : x.id = pid
  · rw [if_pos hxid] at hgx
    rw [← hgx] at hqe
    simp at hqe
  · rw [if_neg hxid] at hgx
    subst hgx
    exact ⟨hx, hxid⟩

lemma find?_setEmbedding_ne {tbl : List Product} {pid q : Nat} {v : List ℚ}
    (hne : q ≠ pid) {p : Product}
    (hp : tbl.find? (fun x => x.id = q) = some p) :
    (setEmbedding tbl pid v).find? (fun x => x.id = q) = some p := by
  unfold setEmbedding
  rw [List.find?_map]
  have hpred : ((fun x : Product => decide (x.id = q))
      ∘ (fun p0 : Product =>
        if p0.id = pid then { p0 with embedding := some v } else p0))
      = fun x : Product => decide (x.id = q) := by
    funext x
    by_cases hx : x.id = pid
    · simp [Function.comp, hx]
    · simp [Function.comp, hx]
  rw [hpred, hp]
  have hfs := List.find?_some hp
  have hidp : p.id = q := by simpa using hfs
  have hpne : ¬p.id = pid := by rw [hidp]; exact hne
  simp [Option.map, hpne]

lemma backfill_fold_spec (cfg : SearchConfig) (provider : EmbedProvider)
    (cats : List Category)
    (hkey : cfg.OPENAI_API_KEY ≠ none)
    (hprov : ∀ s, provider s ≠ none) :
    ∀ (ids : List Nat) (tbl : List Product) (pc ec : Nat),
    ids.Nodup →
    (∀ pid ∈ ids, ∃ p, tbl.find? (fun x => x.id = pid) = some p
        ∧ p.embedding = none) →
    (ids.foldl (processOneEmbedding cfg provider cats) (tbl, pc, ec)).2.1
        = pc + ids.length
    ∧ (ids.foldl (processOneEmbedding cfg provider cats) (tbl, pc, ec)).2.2
        = ec
    ∧ ∀ q ∈ (ids.foldl (processOneEmbedding cfg provider cats)
        (tbl, pc, ec)).1,
        (q.id ∈ ids → q.embedding ≠ none)
        ∧ (q.embedding = none → q ∈ tbl) := by
  intro ids
  induction ids with
  | nil =>
    intro tbl pc ec _ _
    refine ⟨rfl, rfl, ?_⟩
    intro q hq
    exact ⟨fun h => absurd h (List.not_mem_nil _), fun _ => hq⟩
  | cons pid rest ih =>
    intro tbl pc ec hnd hfind
    obtain ⟨p, hp, hpemb⟩ := hfind pid (List.mem_cons_self _ _)
    have hkey' : ∃ k, cfg.OPENAI_API_KEY = some k := by
      cases hk : cfg.OPENAI_API_KEY with
      | none => exact absurd hk hkey
      | some k => exact ⟨k, rfl⟩
    have hprov' : ∃ v,
        provider (generate_product_embedding_text cats p) = some v := by
      cases hv : provider (generate_product_embedding_text cats p) with
      | none => exact absurd hv (hprov _)
      | some v => exact ⟨v, rfl⟩
    obtain ⟨k, hk⟩ := hkey'
    obtain ⟨v, hv⟩ := hprov'
    have hstep : processOneEmbedding cfg provider cats (tbl, pc, ec) pid
        = (setEmbedding tbl pid v, pc + 1, ec) := by
      simp [processOneEmbedding, hp, hpemb, generate_embedding, hk, hv]
    rw [List.nodup_cons] at hnd
    obtain ⟨hpidrest, hndrest⟩ := hnd
    have hfind' : ∀ q ∈ rest, ∃ p',
        (setEmbedding tbl pid v).find? (fun x => x.id = q) = some p'
        ∧ p'.embedding = none := by
      intro q hq
      obtain ⟨p', hp', hp'emb⟩ := hfind q (List.mem_cons_of_mem _ hq)
      have hne : q ≠ pid := fun he => hpidrest (he ▸ hq)
      exact ⟨p', find?_setEmbedding_ne hne hp', hp'emb⟩
    obtain ⟨ih1, ih2, ih3⟩ :=
      ih (setEmbedding tbl pid v) (pc + 1) ec hndrest hfind'
    rw [List.foldl_cons, hstep]
    refine ⟨?_, ih2, ?_⟩
    · rw [ih1, List.length_cons]
      omega
    · intro q hq
      obtain ⟨h1, h2⟩ := ih3 q hq
      constructor
      · intro hqin hqe
        rcases List.mem_cons.mp hqin with heq | hqrest
        · obtain ⟨_, hqne⟩ := mem_setEmbedding_none (h2 hqe) hqe
          exact hqne heq
        · exact h1 hqrest hqe
      · intro hqe
        exact (mem_setEmbedding_none (h2 hqe) hqe).1

lemma process_embeddings_batch_of_empty_scan {cfg : SearchConfig}
    {provider : EmbedProvider} {cats : List Category} {tbl : List Product}
    {batch_size : Nat}
    (h : get_records_without_embeddings tbl batch_size = []) :
    process_embeddings_batch cfg provider cats tbl batch_size
      = (tbl, 0, 0) := by
  unfold process_embeddings_batch
  rw [h]
  rfl

/-- C8: with unique primary keys, an always-succeeding provider and a batch
size covering the N un-embedded rows, the first backfill run processes
exactly N rows; afterwards the scan for NULL-embedding rows finds nothing,
a second run with no intervening writes processes 0 rows, and the
remaining-count is monotonically non-increasing across both runs. -/
theorem backfill_idempotent (cfg : SearchConfig) (provider : EmbedProvider)
    (cats : List Category) (table : List Product) (batch_size : Nat)
    (hnd : (table.map Product.id).Nodup)
    (hkey : cfg.OPENAI_API_KEY ≠ none)
    (hprov : ∀ s, provider s ≠ none)
    (hbatch : records_without_embeddings_count table ≤ batch_size) :
    (process_embeddings_batch cfg provider cats table batch_size).2.1
        = records_without_embeddings_count table
    ∧ get_records_without_embeddings
        (process_embeddings_batch cfg provider cats table batch_size).1
        batch_size = []
    ∧ (process_embeddings_batch cfg provider cats
        (process_embeddings_batch cfg provider cats table batch_size).1
        batch_size).2.1 = 0
    ∧ records_without_embeddings_count
        (process_embeddings_batch cfg provider cats table batch_size).1
        ≤ records_without_embeddings_count table
    ∧ records_without_embeddings_count
        (process_embeddings_batch cfg provider cats
          (process_embeddings_batch cfg provider cats table batch_size).1
          batch_size).1
        ≤ records_without_embeddings_count
            (process_embeddings_batch cfg provider cats table batch_size).1 := by
  have hcount : records_without_embeddings_count table
      = (table.filter fun p => p.embedding = none).length :=
    List.countP_eq_length_filter _ _
  have htake : get_records_without_embeddings table batch_size
      = table.filter fun p => p.embedding = none := by
    unfold get_records_without_embeddings
    exact List.take_of_length_le (by rw [← hcount]; exact hbatch)
  have hndids : ((table.filter fun p => p.embedding = none).map
      Product.id).Nodup :=
    hnd.sublist (List.Sublist.map Product.id (List.filter_sublist table))
  have hfind : ∀ pid ∈ (table.filter fun p => p.embedding = none).map
      Product.id, ∃ p, table.find? (fun x => x.id = pid) = some p
      ∧ p.embedding = none := by
    intro pid hpid
    obtain ⟨p, hpf, hpid_eq⟩ := List.mem_map.mp hpid
    subst hpid_eq
    exact ⟨p, find?_of_nodup hnd (List.mem_of_mem_filter hpf),
      by simpa using List.of_mem_filter hpf⟩
  have hr1 : process_embeddings_batch cfg provider cats table batch_size
      = ((table.filter fun p => p.embedding = none).map Product.id).foldl
          (processOneEmbedding cfg provider cats) (table, 0, 0) := by
    unfold process_embeddings_batch
    rw [htake]
  obtain ⟨hpc, _, hinv⟩ := backfill_fold_spec cfg provider cats hkey hprov
    ((table.filter fun p => p.embedding = none).map Product.id) table 0 0
    hndids hfind
  have hnonull : ∀ q ∈ (process_embeddings_batch cfg provider cats table
      batch_size).1, ¬q.embedding = none := by
    intro q hq hqe
    rw [hr1] at hq
    obtain ⟨h1, h2⟩ := hinv q hq
    have hqtbl : q ∈ table := h2 hqe
    have hqnull : q ∈ table.filter fun p => p.embedding = none :=
      List.mem_filter.mpr ⟨hqtbl, by simp [hqe]⟩
    exact h1 (List.mem_map_of_mem Product.id hqnull) hqe
  have hcnt1 : records_without_embeddings_count
      (process_embeddings_batch cfg provider cats table batch_size).1 = 0 := by
    unfold records_without_embeddings_count
    rw [List.countP_eq_zero]
    intro q hq
    simpa using hnonull q hq
  have hscan1 : get_records_without_embeddings
      (process_embeddings_batch cfg provider cats table batch_size).1
      batch_size = [] := by
    unfold get_records_without_embeddings
    rw [List.filter_eq_nil_iff.mpr (by intro q hq; simpa using hnonull q hq)]
    exact List.take_nil
  have hr2 : process_embeddings_batch cfg provider cats
      (process_embeddings_batch cfg provider cats table batch_size).1
      batch_size
      = ((process_embeddings_batch cfg provider cats table batch_size).1,
          0, 0) :=
    process_embeddings_batch_of_empty_scan hscan1
  refine ⟨?_, hscan1, ?_, ?_, ?_⟩
  · rw [hr1, hpc, List.length_map, hcount]
    omega
  · rw [hr2]
  · rw [hcnt1]
    exact Nat.zero_le _
  · rw [hr2]

/-- A product row with no embedding yet. -/
def prodN1 : Product :=
  { id := 1, title := "A", description := none, price := 1, brand := none,
    tags := none, category_id := none, search_vector := none,
    embedding := none }

/-- A second product row with no embedding yet. -/
def prodN2 : Product :=
  { id := 2, title := "B", description := none, price := 2, brand := none,
    tags := none, category_id := none, search_vector := none,
    embedding := none }

/-- C8 witness: two un-embedded rows, batch size 50, total provider
success. -/
theorem backfill_idempotent_witness :
    (process_embeddings_batch cfg1 provider1 [] [prodN1, prodN2] 50).2.1
        = records_without_embeddings_count [prodN1, prodN2]
    ∧ get_records_without_embeddings
        (process_embeddings_batch cfg1 provider1 [] [prodN1, prodN2] 50).1
        50 = []
    ∧ (process_embeddings_batch cfg1 provider1 []
        (process_embeddings_batch cfg1 provider1 [] [prodN1, prodN2] 50).1
        50).2.1 = 0
    ∧ records_without_embeddings_count
        (process_embeddings_batch cfg1 provider1 [] [prodN1, prodN2] 50).1
        ≤ records_without_embeddings_count [prodN1, prodN2]
    ∧ records_without_embeddings_count
        (process_embeddings_batch cfg1 provider1 []
          (process_embeddings_batch cfg1 provider1 [] [prodN1, prodN2] 50).1
          50).1
        ≤ records_without_embeddings_count
            (process_embeddings_batch cfg1 provider1 [] [prodN1, prodN2] 50).1 :=
  backfill_idempotent cfg1 provider1 [] [prodN1, prodN2] 50
    (by decide)
    (by rw [cfg1_eval]; simp)
    (fun _ h => Option.noConfusion h)
    (by decide)
